import Mathlib

/-!
Shallow embedding of the yt-dlp API server (`server.js`): the process
invocations built by each route handler, the close-handler outcome logic,
the streaming event relay, the periodic file sweep, and the path
resolution of the file retrieval/deletion routes.  Strings are modelled
by Lean `String`, JSON payloads by an inductive `Json` type, exit codes
by `Int`, and file-system state (existence checks, directory listings,
modification times) is passed in explicitly.
-/

namespace QuetVideo

/-- How an external process is launched: either a single command-line
string handed to a shell (`child_process.exec`), or a program plus a
literal argument vector with no shell involved (`child_process.spawn`). -/
inductive Invocation
  | shellCommand (cmd : String)
  | argv (prog : String) (args : List String)
deriving DecidableEq, Repr

/-- True exactly when the invocation passes its arguments as a literal
vector (spawn-style), with no shell interpretation. -/
def Invocation.isLiteralVector : Invocation → Bool
  | .shellCommand _ => false
  | .argv _ _ => true

/-- Shell command line built by the `/api/info` handler (server.js line 73):
the caller-supplied URL is interpolated, between double quotes, into the
command string passed to `exec`. -/
def infoCmd (url : String) : String :=
  "yt-dlp --dump-json \"" ++ url ++ "\""

/-- Invocation performed by the `/api/info` handler: `execAsync(cmd)`
runs the interpolated command line through a shell (server.js line 74). -/
def infoInvocation (url : String) : Invocation :=
  .shellCommand (infoCmd url)

/-- Format-selector expression of the `/api/download` handler
(server.js lines 120-132). -/
def videoFormatStr (format quality : String) : String :=
  if quality = "best" then
    if format = "mp4" then
      "bestvideo[ext=mp4]+bestaudio[ext=m4a]/best[ext=mp4]/best"
    else
      "bestvideo+bestaudio/best"
  else if quality = "1080p" then
    "bestvideo[height<=1080]+bestaudio/best[height<=1080]"
  else if quality = "720p" then
    "bestvideo[height<=720]+bestaudio/best[height<=720]"
  else if quality = "480p" then
    "bestvideo[height<=480]+bestaudio/best[height<=480]"
  else
    "bestvideo+bestaudio/best"

/-- Argument vector of the `/api/download` handler (server.js lines 136-142). -/
def downloadArgs (url format quality outputPath : String) : List String :=
  ["-f", videoFormatStr format quality,
   "--merge-output-format", format,
   "-o", outputPath,
   "--no-playlist",
   url]

/-- Invocation performed by the `/api/download` handler:
`spawn('yt-dlp', args)` (server.js line 146). -/
def downloadInvocation (url format quality outputPath : String) : Invocation :=
  .argv "yt-dlp" (downloadArgs url format quality outputPath)

/-- Argument vector of the `/api/download-audio` handler
(server.js lines 211-218). -/
def audioArgs (url format outputPath : String) : List String :=
  ["-x",
   "--audio-format", format,
   "--audio-quality", "0",
   "-o", outputPath,
   "--no-playlist",
   url]

/-- Invocation performed by the `/api/download-audio` handler:
`spawn('yt-dlp', args)` (server.js line 222). -/
def audioInvocation (url format outputPath : String) : Invocation :=
  .argv "yt-dlp" (audioArgs url format outputPath)

/-- Format-selector expression of the `/api/download-stream` handler
(server.js lines 284-286). -/
def streamFormatStr (format : String) : String :=
  if format = "mp4" then
    "bestvideo[ext=mp4]+bestaudio[ext=m4a]/best[ext=mp4]/best"
  else
    "bestvideo+bestaudio/best"

/-- Argument vector of the `/api/download-stream` handler
(server.js lines 288-295). -/
def streamArgs (url format outputTemplate : String) : List String :=
  ["-f", streamFormatStr format,
   "--merge-output-format", format,
   "-o", outputTemplate,
   "--no-playlist",
   "--newline",
   url]

/-- Invocation performed by the `/api/download-stream` handler:
`spawn('yt-dlp', args)` (server.js line 302). -/
def streamInvocation (url format outputTemplate : String) : Invocation :=
  .argv "yt-dlp" (streamArgs url format outputTemplate)

/-- C1 counterexample: the info-query submission does not launch the tool
with a literal argument vector; it interpolates the caller-supplied URL
into a shell command line (`exec`), so the URL is not one literal argv
element. -/
theorem info_shell_interpolation_cex :
    infoInvocation "https://example.com/v"
      = Invocation.shellCommand "yt-dlp --dump-json \"https://example.com/v\"" ∧
    Invocation.isLiteralVector (infoInvocation "https://example.com/v") = false := by
  constructor
  · rfl
  · rfl

/-- C1 (amended): the video-download, audio-download and streaming
submissions launch the external tool via `spawn` with a literal argument
vector in which the caller-supplied URL is the final argv element, while
the info-query submission instead interpolates the URL into a shell
command line. -/
theorem submit_argv_literal_vector
    (url format quality outputPath outputTemplate : String) :
    (downloadInvocation url format quality outputPath).isLiteralVector = true ∧
    (audioInvocation url format outputPath).isLiteralVector = true ∧
    (streamInvocation url format outputTemplate).isLiteralVector = true ∧
    (downloadArgs url format quality outputPath).getLast? = some url ∧
    (audioArgs url format outputPath).getLast? = some url ∧
    (streamArgs url format outputTemplate).getLast? = some url ∧
    (infoInvocation url).isLiteralVector = false := by
  refine ⟨rfl, rfl, rfl, ?_, ?_, ?_, rfl⟩ <;> rfl

/-- Outcome of a buffered (non-streaming) download job as reported to the
caller: the success response carries the file name, the failure response
carries the error message. -/
inductive JobResult
  | success (fileName : String)
  | failure (message : String)
deriving DecidableEq, Repr

/-- Generic diagnostic used when a non-zero exit carries no stderr text
(server.js lines 162, 238, 338). -/
def genericExitMessage (code : Int) : String :=
  "Process exited with code " ++ toString code

/-- Outcome of the `/api/download` handler after the process closes
(server.js lines 158-183): exit code 0 resolves the promise and the
handler then checks `fs.existsSync(outputPath)`; a missing file throws
`Download completed but file not found`; a non-zero exit rejects with
the accumulated stderr, or the generic exit-code message when stderr is
empty.  The file-system existence check is passed in as `fileExists`. -/
def downloadResult (code : Int) (stderr : String) (fileExists : Bool)
    (jobId format : String) : JobResult :=
  if code = 0 then
    if fileExists then
      .success (jobId ++ "." ++ format)
    else
      .failure "Download completed but file not found"
  else
    .failure (if stderr = "" then genericExitMessage code else stderr)

/-- Outcome of the `/api/download-audio` handler after the process closes
(server.js lines 234-259); the logic is the same as `/api/download`. -/
def audioDownloadResult (code : Int) (stderr : String) (fileExists : Bool)
    (jobId format : String) : JobResult :=
  if code = 0 then
    if fileExists then
      .success (jobId ++ "." ++ format)
    else
      .failure "Download completed but file not found"
  else
    .failure (if stderr = "" then genericExitMessage code else stderr)

/-- Server-sent events written by the `/api/download-stream` handler:
`progress` for a stdout chunk, `log` for a stderr chunk, and the two
terminal kinds `complete` and `error`. -/
inductive StreamEvent
  | progress (message : String)
  | log (message : String)
  | complete (fileName downloadUrl : String)
  | error (message : String)
deriving DecidableEq, Repr

/-- An event is terminal when it is `complete` or `error`. -/
def StreamEvent.isTerminal : StreamEvent → Bool
  | .complete _ _ => true
  | .error _ => true
  | .progress _ => false
  | .log _ => false

/-- One chunk of output produced by the yt-dlp process on one of its two
pipes. -/
inductive Chunk
  | out (data : String)
  | err (data : String)
deriving DecidableEq, Repr

/-- Event written for one output chunk (server.js lines 304-312): stdout
data becomes a `progress` event, stderr data becomes a `log` event. -/
def chunkEvent : Chunk → StreamEvent
  | .out d => .progress d
  | .err d => .log d

/-- Concatenation of all stderr chunks of a process run, in order; this
is what the buffered handlers accumulate into their `stderr` variable. -/
def accumulatedStderr (chunks : List Chunk) : String :=
  chunks.foldl
    (fun acc c =>
      match c with
      | .err d => acc ++ d
      | .out _ => acc)
    ""

/-- The JavaScript `f.startsWith(jobId)` test used by the stream close
handler's directory scan, modelled on the character sequences. -/
def strStartsWith (s p : String) : Bool :=
  p.data.isPrefixOf s.data

/-- Events written by the close handler of `/api/download-stream`
(server.js lines 314-341): on exit code 0 the downloads directory is
scanned for files whose name starts with the job id; a non-empty scan
yields one `complete` event for its first entry, an empty scan yields
one `error` event; a non-zero exit yields one `error` event with the
generic exit-code message.  The directory listing is passed in as
`listing`. -/
def streamCloseEvents (code : Int) (listing : List String)
    (jobId protocol host : String) : List StreamEvent :=
  if code = 0 then
    match listing.filter (fun f => strStartsWith f jobId) with
    | fileName :: _ =>
        [.complete fileName
          (protocol ++ "://" ++ host ++ "/api/file/" ++ fileName)]
    | [] => [.error "File not found after download"]
  else
    [.error (genericExitMessage code)]

/-- Full event sequence of one streaming job: the per-chunk events in
arrival order, then the close-handler events. -/
def streamEvents (chunks : List Chunk) (code : Int) (listing : List String)
    (jobId protocol host : String) : List StreamEvent :=
  chunks.map chunkEvent ++ streamCloseEvents code listing jobId protocol host

/-- What one streaming connection delivers: the event sequence and
whether `res.end()` was called afterwards. -/
structure StreamOutput where
  events : List StreamEvent
  ended : Bool
deriving DecidableEq, Repr

/-- One complete run of the `/api/download-stream` handler: all events,
followed by `res.end()` (server.js line 341). -/
def streamRun (chunks : List Chunk) (code : Int) (listing : List String)
    (jobId protocol host : String) : StreamOutput :=
  ⟨streamEvents chunks code listing jobId protocol host, true⟩

/-- The close handler always writes exactly one event, and it is terminal. -/
theorem streamCloseEvents_singleton (code : Int) (listing : List String)
    (jobId protocol host : String) :
    ∃ t : StreamEvent, t.isTerminal = true ∧
      streamCloseEvents code listing jobId protocol host = [t] := by
  unfold streamCloseEvents
  by_cases hc : code = 0
  · simp only [hc, if_pos rfl]
    cases hfil : listing.filter (fun f => strStartsWith f jobId) with
    | nil => exact ⟨.error "File not found after download", rfl, rfl⟩
    | cons fileName rest =>
        exact ⟨.complete fileName
          (protocol ++ "://" ++ host ++ "/api/file/" ++ fileName), rfl, rfl⟩
  · simp only [if_neg hc]
    exact ⟨.error (genericExitMessage code), rfl, rfl⟩

/-- C2: when the external process exits with code 0, the buffered
handlers verify the expected output file: present yields success with
the resolved file name, absent yields failure with the
completed-but-output-missing diagnostic; the streaming handler emits a
`complete` event naming the first matching file when the prefix scan
finds one, and a terminal `error` event when it finds none. -/
theorem exit_zero_output_check (stderr jobId format protocol host : String)
    (listing : List String) :
    downloadResult 0 stderr true jobId format
      = .success (jobId ++ "." ++ format) ∧
    downloadResult 0 stderr false jobId format
      = .failure "Download completed but file not found" ∧
    audioDownloadResult 0 stderr true jobId format
      = .success (jobId ++ "." ++ format) ∧
    audioDownloadResult 0 stderr false jobId format
      = .failure "Download completed but file not found" ∧
    (listing.filter (fun f => strStartsWith f jobId) = [] →
      streamCloseEvents 0 listing jobId protocol host
        = [.error "File not found after download"]) ∧
    (∀ fileName rest,
      listing.filter (fun f => strStartsWith f jobId) = fileName :: rest →
      streamCloseEvents 0 listing jobId protocol host
        = [.complete fileName
            (protocol ++ "://" ++ host ++ "/api/file/" ++ fileName)]) := by
  refine ⟨rfl, rfl, rfl, rfl, ?_, ?_⟩
  · intro hfil
    unfold streamCloseEvents
    simp [hfil]
  · intro fileName rest hfil
    unfold streamCloseEvents
    simp [hfil]

/-- C2 witness: instantiation at a concrete streaming job whose process
exits 0 and whose directory listing contains the job-id-prefixed file. -/
theorem exit_zero_output_check_w :
    streamCloseEvents 0 ["video_1.mp4"] "video_1" "http" "h"
      = [StreamEvent.complete "video_1.mp4" "http://h/api/file/video_1.mp4"] := by
  have h := (exit_zero_output_check "" "video_1" "mp4" "http" "h"
    ["video_1.mp4"]).2.2.2.2.2 "video_1.mp4" [] (by decide)
  have he : ("http" ++ "://" ++ "h" ++ "/api/file/" ++ "video_1.mp4" : String)
      = "http://h/api/file/video_1.mp4" := by decide
  rw [he] at h
  exact h

/-- C3 counterexample: a streaming job whose process writes "boom" on
stderr and exits with code 1.  The accumulated stderr is the non-empty
string "boom", yet the terminal event carries the generic exit-code
message, and no event in the stream carries the accumulated stderr
text, contradicting the claim for the streaming close handler. -/
theorem stream_error_ignores_stderr_cex :
    accumulatedStderr [Chunk.err "boom"] = "boom" ∧
    streamEvents [Chunk.err "boom"] 1 [] "video_1" "http" "h"
      = [StreamEvent.log "boom",
         StreamEvent.error "Process exited with code 1"] ∧
    StreamEvent.error (accumulatedStderr [Chunk.err "boom"]) ∉
      streamEvents [Chunk.err "boom"] 1 [] "video_1" "http" "h" := by
  refine ⟨by decide, by decide, by decide⟩

/-- C3 (amended): for the buffered handlers a non-zero exit yields
failure carrying the accumulated stderr text, or the generic exit-code
message when stderr is empty; the streaming close handler instead always
emits a terminal `error` event carrying the generic exit-code message
(its stderr was relayed live as `log` events, not accumulated). -/
theorem nonzero_exit_failure (code : Int) (stderr jobId format protocol host : String)
    (fileExists : Bool) (listing : List String) (h : ¬ code = 0) :
    (stderr ≠ "" →
      downloadResult code stderr fileExists jobId format = .failure stderr ∧
      audioDownloadResult code stderr fileExists jobId format = .failure stderr) ∧
    (stderr = "" →
      downloadResult code stderr fileExists jobId format
        = .failure (genericExitMessage code) ∧
      audioDownloadResult code stderr fileExists jobId format
        = .failure (genericExitMessage code)) ∧
    streamCloseEvents code listing jobId protocol host
      = [.error (genericExitMessage code)] := by
  refine ⟨?_, ?_, ?_⟩
  · intro hs
    constructor
    · unfold downloadResult
      simp [h, hs]
    · unfold audioDownloadResult
      simp [h, hs]
  · intro hs
    constructor
    · unfold downloadResult
      simp [h, hs]
    · unfold audioDownloadResult
      simp [h, hs]
  · unfold streamCloseEvents
    simp [h]

/-- C3 witness: instantiation at exit code 1 with stderr text "boom"
for the buffered handler and at the streaming close handler. -/
theorem nonzero_exit_failure_w :
    downloadResult 1 "boom" false "video_1" "mp4" = JobResult.failure "boom" ∧
    streamCloseEvents 1 [] "video_1" "http" "h"
      = [StreamEvent.error (genericExitMessage 1)] := by
  have h := nonzero_exit_failure 1 "boom" "video_1" "mp4" "http" "h" false []
    (by decide)
  exact ⟨(h.1 (by decide)).1, h.2.2⟩

/-- C4: every streaming run emits exactly one terminal event, it is the
last event of the sequence (all chunk-relay events preceding it are
non-terminal), and the stream is ended immediately after it. -/
theorem stream_single_terminal_event (chunks : List Chunk) (code : Int)
    (listing : List String) (jobId protocol host : String) :
    ∃ t : StreamEvent, t.isTerminal = true ∧
      (streamRun chunks code listing jobId protocol host).events
        = chunks.map chunkEvent ++ [t] ∧
      (∀ c : Chunk, (chunkEvent c).isTerminal = false) ∧
      (streamRun chunks code listing jobId protocol host).ended = true := by
  obtain ⟨t, ht, he⟩ :=
    streamCloseEvents_singleton code listing jobId protocol host
  refine ⟨t, ht, ?_, ?_, rfl⟩
  · show streamEvents chunks code listing jobId protocol host
      = chunks.map chunkEvent ++ [t]
    unfold streamEvents
    rw [he]
  · intro c
    cases c with
    | out d => rfl
    | err d => rfl

/-- C6: every success of a buffered job reports the file name
`jobId ++ "." ++ format`, which starts with the job id; a streaming
`complete` event only ever names a file that passed the
starts-with-job-id directory scan. -/
theorem success_file_prefixed (code : Int)
    (stderr jobId format name protocol host fileName u : String)
    (fileExists : Bool) (listing : List String) :
    (downloadResult code stderr fileExists jobId format = .success name →
      name = jobId ++ "." ++ format ∧ strStartsWith name jobId = true) ∧
    (audioDownloadResult code stderr fileExists jobId format = .success name →
      name = jobId ++ "." ++ format ∧ strStartsWith name jobId = true) ∧
    (streamCloseEvents code listing jobId protocol host
        = [.complete fileName u] →
      strStartsWith fileName jobId = true) := by
  have hpre : strStartsWith (jobId ++ "." ++ format) jobId = true := by
    unfold strStartsWith
    simp [List.isPrefixOf_iff_prefix, String.data_append]
  refine ⟨?_, ?_, ?_⟩
  · intro hs
    unfold downloadResult at hs
    by_cases hc : code = 0
    · by_cases hf : fileExists = true
      · simp [hc, hf] at hs
        exact ⟨hs.symm, hs ▸ hpre⟩
      · simp [hc, hf] at hs
    · simp [hc] at hs
  · intro hs
    unfold audioDownloadResult at hs
    by_cases hc : code = 0
    · by_cases hf : fileExists = true
      · simp [hc, hf] at hs
        exact ⟨hs.symm, hs ▸ hpre⟩
      · simp [hc, hf] at hs
    · simp [hc] at hs
  · intro hs
    unfold streamCloseEvents at hs
    by_cases hc : code = 0
    · rw [if_pos hc] at hs
      cases hfil : listing.filter (fun f => strStartsWith f jobId) with
      | nil => rw [hfil] at hs; simp at hs
      | cons g rest =>
          rw [hfil] at hs
          simp only [List.cons.injEq] at hs
          have hg : strStartsWith g jobId = true := by
            have hmem : g ∈ listing.filter (fun f => strStartsWith f jobId) := by
              rw [hfil]
              exact List.mem_cons_self g rest
            have hpq := List.mem_filter.mp hmem
            exact hpq.2
          have : fileName = g := by
            have := hs.1
            cases this
            rfl
          exact this ▸ hg
    · rw [if_neg hc] at hs
      simp at hs

/-- C6 witness: instantiation at a successful buffered job and at a
streaming job whose directory listing holds the job-id-prefixed file. -/
theorem success_file_prefixed_w :
    ("video_1.mp4" : String) = "video_1" ++ "." ++ "mp4" ∧
    strStartsWith "video_1.mp4" "video_1" = true := by
  exact (success_file_prefixed 0 "" "video_1" "mp4" "video_1.mp4" "http" "h"
    "video_1.mp4" "u" true []).1 (by decide)

/-- The downloads directory, `path.join(__dirname, 'downloads')`
(server.js line 20), with `__dirname` taken to be `/app` as in the
shipped container image. -/
def DOWNLOADS_DIR : String := "/app/downloads"

/-- What a submission route does before returning: either the immediate
400 validation response, or the start of a job.  The `started` outcome
records the job id assigned (none for the info query, which has no job
id) and the process invocation launched; `validationError` records
neither, because the guard returns before either happens. -/
inductive SubmitOutcome
  | validationError (status : Nat) (message : String)
  | started (jobId : Option String) (inv : Invocation)
deriving DecidableEq, Repr

/-- The JavaScript guard `if (!url)` on the request body's `url` field:
true when the field is absent (undefined) or the empty string. -/
def urlMissing : Option String → Bool
  | none => true
  | some u => decide (u = "")

/-- Job id of a video job (server.js lines 115, 281), with the timestamp
and the random suffix passed in. -/
def videoJobId (now : Nat) (rand : String) : String :=
  "video_" ++ toString now ++ "_" ++ rand

/-- Job id of an audio job (server.js line 205). -/
def audioJobId (now : Nat) (rand : String) : String :=
  "audio_" ++ toString now ++ "_" ++ rand

/-- Submission phase of `/api/info` (server.js lines 62-74): guard on
the url, then launch the shell invocation; no job id exists for this
route. -/
def infoSubmit (url? : Option String) : SubmitOutcome :=
  match url? with
  | none => .validationError 400 "URL is required"
  | some url =>
    if url = "" then .validationError 400 "URL is required"
    else .started none (infoInvocation url)

/-- Submission phase of `/api/download` (server.js lines 105-146): guard
on the url, then assign the job id, build the output path and spawn. -/
def downloadSubmit (url? format? quality? : Option String)
    (now : Nat) (rand : String) : SubmitOutcome :=
  let format := format?.getD "mp4"
  let quality := quality?.getD "best"
  match url? with
  | none => .validationError 400 "URL is required"
  | some url =>
    if url = "" then .validationError 400 "URL is required"
    else
      let jobId := videoJobId now rand
      let outputPath := DOWNLOADS_DIR ++ "/" ++ jobId ++ "." ++ format
      .started (some jobId) (downloadInvocation url format quality outputPath)

/-- Submission phase of `/api/download-audio` (server.js lines 195-222). -/
def audioSubmit (url? format? : Option String)
    (now : Nat) (rand : String) : SubmitOutcome :=
  let format := format?.getD "mp3"
  match url? with
  | none => .validationError 400 "URL is required"
  | some url =>
    if url = "" then .validationError 400 "URL is required"
    else
      let jobId := audioJobId now rand
      let outputPath := DOWNLOADS_DIR ++ "/" ++ jobId ++ "." ++ format
      .started (some jobId) (audioInvocation url format outputPath)

/-- Submission phase of `/api/download-stream` (server.js lines 271-302):
guard on the url, then assign the job id, build the output template and
spawn.  The destructured `quality` field is never used by this route. -/
def streamSubmit (url? format? _quality? : Option String)
    (now : Nat) (rand : String) : SubmitOutcome :=
  let format := format?.getD "mp4"
  match url? with
  | none => .validationError 400 "URL is required"
  | some url =>
    if url = "" then .validationError 400 "URL is required"
    else
      let jobId := videoJobId now rand
      let outputTemplate := DOWNLOADS_DIR ++ "/" ++ jobId ++ ".%(ext)s"
      .started (some jobId) (streamInvocation url format outputTemplate)

/-- C5: every submission whose url is absent or empty yields the 400
validation outcome on all four routes; that outcome carries no job id
and no invocation, so it is produced before any job id is assigned and
before any external process is spawned. -/
theorem missing_url_rejected (url? format? quality? : Option String)
    (now : Nat) (rand : String) (h : urlMissing url? = true) :
    infoSubmit url? = .validationError 400 "URL is required" ∧
    downloadSubmit url? format? quality? now rand
      = .validationError 400 "URL is required" ∧
    audioSubmit url? format? now rand
      = .validationError 400 "URL is required" ∧
    streamSubmit url? format? quality? now rand
      = .validationError 400 "URL is required" := by
  cases url? with
  | none =>
      refine ⟨rfl, rfl, rfl, rfl⟩
  | some u =>
      have hu : u = "" := of_decide_eq_true h
      subst hu
      refine ⟨rfl, rfl, rfl, rfl⟩

/-- C5 witness: a submission with an empty url string on the download
route is rejected with the 400 validation outcome. -/
theorem missing_url_rejected_w :
    downloadSubmit (some "") none none 0 "r"
      = SubmitOutcome.validationError 400 "URL is required" :=
  (missing_url_rejected (some "") none none 0 "r" (by decide)).2.1

/-- JSON values, as needed to model the info-query projection. -/
inductive Json
  | null
  | num (n : Int)
  | str (s : String)
  | arr (elems : List Json)
  | obj (fields : List (String × Json))

/-- Field access `info.key`: the first binding of the key in an object,
and the JavaScript `undefined` (modelled as `null`) otherwise. -/
def Json.get (j : Json) (key : String) : Json :=
  match j with
  | .obj fields =>
    match fields.find? (fun p => decide (p.1 = key)) with
    | some p => p.2
    | none => .null
  | _ => .null

/-- Keys of an object value, in order. -/
def Json.keys : Json → List String
  | .obj fields => fields.map (fun p => p.1)
  | _ => []

/-- Reduction of one format descriptor (server.js lines 87-92). -/
def projectFormat (f : Json) : Json :=
  .obj [("format_id", f.get "format_id"),
        ("ext", f.get "ext"),
        ("resolution", f.get "resolution"),
        ("filesize", f.get "filesize")]

/-- The expression `info.formats?.map(...) || []` (server.js lines
87-92): map the reduction over the formats array, or the empty array
when `formats` is not an array. -/
def projectFormats (info : Json) : Json :=
  match info.get "formats" with
  | .arr fs => .arr (fs.map projectFormat)
  | _ => .arr []

/-- The `data` object of a successful `/api/info` response (server.js
lines 79-93). -/
def projectInfo (info : Json) : Json :=
  .obj [("title", info.get "title"),
        ("duration", info.get "duration"),
        ("thumbnail", info.get "thumbnail"),
        ("description", info.get "description"),
        ("uploader", info.get "uploader"),
        ("upload_date", info.get "upload_date"),
        ("view_count", info.get "view_count"),
        ("formats", projectFormats info)]

/-- Modelled from the spec: the field subset the specification names for
the info projection — title, duration, thumbnail, uploader, upload date,
view count, formats — with no description field. -/
def specInfoFields : List String :=
  ["title", "duration", "thumbnail", "uploader", "upload_date",
   "view_count", "formats"]

/-- C7 counterexample: the info projection's key set is not the field
subset the claim names — it also contains `description`. -/
theorem info_projection_has_description_cex :
    Json.keys (projectInfo (Json.obj [])) ≠ specInfoFields ∧
    "description" ∈ Json.keys (projectInfo (Json.obj [])) ∧
    "description" ∉ specInfoFields := by
  refine ⟨by decide, by decide, by decide⟩

/-- C7 (amended): every successful info-query response is projected into
exactly the fields title, duration, thumbnail, description, uploader,
upload_date, view_count and formats, and every format descriptor is
reduced to exactly format_id, ext, resolution and filesize. -/
theorem info_projection_fields (info f : Json) :
    Json.keys (projectInfo info)
      = ["title", "duration", "thumbnail", "description", "uploader",
         "upload_date", "view_count", "formats"] ∧
    Json.keys (projectFormat f)
      = ["format_id", "ext", "resolution", "filesize"] := by
  exact ⟨rfl, rfl⟩

/-- A file of the downloads directory as the sweep sees it: its name and
its last-modified time in milliseconds. -/
structure StoredFile where
  name : String
  mtimeMs : Int
deriving DecidableEq, Repr

/-- The fixed retention window, `2 * 60 * 60 * 1000` milliseconds
(server.js line 26). -/
def twoHoursMs : Int := 2 * 60 * 60 * 1000

/-- The sweep's deletion test, `now - stat.mtimeMs > twoHours`
(server.js line 31). -/
def isExpired (now : Int) (f : StoredFile) : Bool :=
  decide (now - f.mtimeMs > twoHoursMs)

/-- The periodic sweep `cleanupOldFiles` (server.js lines 24-36): every
file whose age exceeds the window is unlinked; the survivors are the
rest.  The directory listing and the current time are passed in. -/
def cleanupOldFiles (now : Int) (files : List StoredFile) : List StoredFile :=
  files.filter (fun f => ! isExpired now f)

/-- C8: a file survives the sweep exactly when it was present before and
its age does not exceed the two-hour window; so every file older than
the window is absent afterwards, and every file newer than the window is
still present. -/
theorem cleanup_keeps_exactly_fresh (now : Int) (files : List StoredFile)
    (f : StoredFile) :
    f ∈ cleanupOldFiles now files ↔
      f ∈ files ∧ ¬ now - f.mtimeMs > twoHoursMs := by
  simp [cleanupOldFiles, List.mem_filter, isExpired]

/-- Sources of events a streaming request handler could react to. -/
inductive StreamSource
  | ytdlpStdout
  | ytdlpStderr
  | ytdlpClose
  | clientDisconnect
deriving DecidableEq, Repr

/-- Reactions a streaming request handler could install. -/
inductive StreamAction
  | writeProgressEvent
  | writeLogEvent
  | writeTerminalAndEnd
  | killProcess
deriving DecidableEq, Repr

/-- The listeners the `/api/download-stream` handler registers
(server.js lines 304-342): `ytdlp.stdout.on('data', ...)`,
`ytdlp.stderr.on('data', ...)` and `ytdlp.on('close', ...)`.  The
handler attaches nothing to the request or response — there is no
`req.on('close')`/`res.on('close')` listener — and the source contains
no `kill` call at all. -/
def streamListeners : List (StreamSource × StreamAction) :=
  [(.ytdlpStdout, .writeProgressEvent),
   (.ytdlpStderr, .writeLogEvent),
   (.ytdlpClose, .writeTerminalAndEnd)]

/-- Whether any registered listener reacts to a client disconnect. -/
def handlesDisconnect : Bool :=
  streamListeners.any (fun l => decide (l.1 = StreamSource.clientDisconnect))

/-- Whether a client disconnect triggers termination of the yt-dlp
process. -/
def killsProcessOnDisconnect : Bool :=
  streamListeners.any (fun l =>
    decide (l.1 = StreamSource.clientDisconnect)
      && decide (l.2 = StreamAction.killProcess))

/-- C9: the streaming handler registers no listener for a caller
disconnect, and in particular no disconnect ever terminates the
underlying external process — contrary to the claim, a caller
disconnecting before the terminal event leaves yt-dlp running. -/
theorem stream_no_disconnect_handling :
    handlesDisconnect = false ∧ killsProcessOnDisconnect = false := by
  refine ⟨by decide, by decide⟩

/-- Splitting of a character list into `/`-separated path segments. -/
def splitSegsAux : List Char → List Char → List String
  | [], cur => [String.mk cur.reverse]
  | c :: cs, cur =>
    if c = '/' then String.mk cur.reverse :: splitSegsAux cs []
    else splitSegsAux cs (c :: cur)

/-- Path segments of a name, split on `/`. -/
def splitSegs (s : String) : List String :=
  splitSegsAux s.data []

/-- Normalization performed by Node's `path.join`: empty and `.`
segments are dropped, and `..` removes the preceding segment (at the
root it is absorbed). -/
def normalizeSegments (segs : List String) : List String :=
  segs.foldl
    (fun acc seg =>
      if seg = "" ∨ seg = "." then acc
      else if seg = ".." then acc.dropLast
      else acc ++ [seg])
    []

/-- Segments of the downloads directory `/app/downloads`. -/
def downloadsDirSegs : List String := ["app", "downloads"]

/-- Path used by the GET `/api/file/:filename` handler (server.js line
348): `path.join(DOWNLOADS_DIR, filename)` with no validation of the
result. -/
def getFilePath (filename : String) : List String :=
  normalizeSegments (downloadsDirSegs ++ splitSegs filename)

/-- Path used by the DELETE `/api/file/:filename` handler (server.js
line 396): the same unvalidated join. -/
def deleteFilePath (filename : String) : List String :=
  normalizeSegments (downloadsDirSegs ++ splitSegs filename)

/-- Whether a resolved path still lies inside the downloads directory. -/
def insideDownloadsDir (p : List String) : Bool :=
  downloadsDirSegs.isPrefixOf p

/-- C10: a caller-supplied name containing parent-directory components
resolves, in both the file-retrieval and the file-deletion handler, to a
path outside the downloads directory: `../../etc/passwd` resolves to
`/etc/passwd`. -/
theorem file_ops_path_escape :
    ".." ∈ splitSegs "../../etc/passwd" ∧
    getFilePath "../../etc/passwd" = ["etc", "passwd"] ∧
    deleteFilePath "../../etc/passwd" = ["etc", "passwd"] ∧
    insideDownloadsDir (getFilePath "../../etc/passwd") = false := by
  refine ⟨by decide, by decide, by decide, by decide⟩

end QuetVideo
